import Mathlib

/-!
# belegboost — tenant resolution and data-scoping core, shallowly embedded

A shallow embedding of the tenant-resolution and data-scoping core of the
belegboost application: the Next.js host-routing middleware
(`src/middleware.ts`), the server-side tenant context
(`src/lib/server/tenant.ts`), the session helpers
(`src/lib/server/session.ts`), the data access layer
(`src/lib/dal/tenants.ts`, `src/lib/dal/organizations.ts`, the users DAL),
the registration server action (`src/actions/auth.ts`), the authentication
constants (`src/lib/constants/auth.ts`) and the checklist progress helpers
(`src/types/checklist.ts`), together with theorems settling the
specification's claims against the embedded code.

External collaborators (the Appwrite identity provider and document store,
and the zod validation library) are modelled as oracles / explicit state:
each call site that can fail takes its outcome from an `Oracle` record, and
the document store is a record of lists of documents.
-/

namespace Belegboost

/-! ## String helpers

JavaScript string primitives used by the source (`split('.')`, `includes`,
`toLowerCase`, `trim`) modelled on Lean strings through their character
lists, so that every definition reduces in the kernel. -/

/-- JavaScript `s.split(sep)` for a one-character separator: splits on every
occurrence; always returns at least one (possibly empty) piece. -/
def splitOnChar (sep : Char) : List Char → List (List Char)
  | [] => [[]]
  | c :: cs =>
    match splitOnChar sep cs with
    | [] => if c = sep then [[], []] else [[c]]
    | p :: ps => if c = sep then [] :: p :: ps else (c :: p) :: ps

/-- The dot-separated labels of a host name (JS `hostname.split('.')`). -/
def hostParts (s : String) : List String :=
  (splitOnChar '.' s.data).map String.mk

/-- Does the first list occur at the start of the second? -/
def listStartsWith : List Char → List Char → Bool
  | [], _ => true
  | _ :: _, [] => false
  | p :: ps, c :: cs => p = c && listStartsWith ps cs

/-- Does the first list occur contiguously anywhere inside the second? -/
def listContainsSub (pat : List Char) : List Char → Bool
  | [] => pat.isEmpty
  | c :: cs => listStartsWith pat (c :: cs) || listContainsSub pat cs

/-- JavaScript `s.includes(pat)`: substring containment. -/
def strIncludes (s pat : String) : Bool :=
  listContainsSub pat.data s.data

/-- JavaScript `s.toLowerCase()` (ASCII case mapping suffices for the
subdomain alphabet used by the source). -/
def strToLower (s : String) : String :=
  String.mk (s.data.map Char.toLower)

/-- JavaScript `s.trim()`: strip leading and trailing whitespace. -/
def strTrim (s : String) : String :=
  String.mk (((s.data.dropWhile Char.isWhitespace).reverse.dropWhile
    Char.isWhitespace).reverse)

/-! ## Host Router (`src/middleware.ts`) -/

/-- Result of the middleware: `NextResponse.next()` (pass through unchanged)
or `NextResponse.rewrite` to a tenant-namespaced path. -/
inductive MiddlewareResult
  | next
  | rewrite (pathname : String)
  deriving DecidableEq, Repr

/-- Subdomain extraction of `middleware` (`src/middleware.ts` lines 20-44):
a `localhost` development branch keyed on substring containment, then a
production branch keyed on containment of `belegboost.de`. `parts[0]` in JS
is total because `split` never returns an empty array; `headD ""` mirrors
that. The empty string plays the role of JS falsy `''` (no tenant). -/
def middlewareSubdomain (hostname : String) : String :=
  if strIncludes hostname "localhost" then
    let parts := hostParts hostname
    if parts.length > 1 && parts.headD "" != "localhost" then parts.headD "" else ""
  else if strIncludes hostname "belegboost.de" then
    let parts := hostParts hostname
    if parts.headD "" == "www" || parts.length == 2 then ""
    else if parts.length == 3 then parts.headD ""
    else ""
  else ""

/-- `middleware` from `src/middleware.ts`: extract the subdomain from the
`host` header; no subdomain means pass-through, otherwise the path is
rewritten to `/tenants/[subdomain]` followed by the original path. -/
def middleware (hostname pathname : String) : MiddlewareResult :=
  let subdomain := middlewareSubdomain hostname
  if subdomain == "" then .next
  else .rewrite ("/tenants/" ++ subdomain ++ pathname)

/-! ## Authentication constants (`src/lib/constants/auth.ts`) -/

/-- `RESERVED_SUBDOMAINS`: subdomains that cannot be used for tenant
registration. -/
def RESERVED_SUBDOMAINS : List String :=
  ["www", "app", "api", "admin", "dashboard", "auth", "login", "logout",
   "register", "signup", "signin", "mail", "email", "smtp", "ftp", "help",
   "support", "docs", "blog", "status", "cdn", "assets", "static", "media",
   "uploads", "downloads", "test", "testing", "staging", "dev",
   "development", "prod", "production"]

/-! ## Server-side tenant context (`src/lib/server/tenant.ts`) -/

/-- The context object returned by `getTenantContext` (the placeholder
object literal at `src/lib/server/tenant.ts` lines 63-68; note it carries
no `organizationId`, unlike the declared `TenantContext` interface). -/
structure TenantContext where
  tenantId : String
  userId : String
  role : String
  subdomain : String
  deriving DecidableEq, Repr

/-- `getTenantContext` from `src/lib/server/tenant.ts`: extracts the
subdomain from the `host` header, throws when there is none, and otherwise
returns the hard-coded placeholder context (the body is marked
`TODO: Implement actual authentication check with Appwrite`); no session,
membership or tenant lookup is performed. -/
def getTenantContext (hostname : String) : Except String TenantContext :=
  let subdomain :=
    if strIncludes hostname "localhost" then
      let parts := hostParts hostname
      if parts.length > 1 && parts.headD "" != "localhost" then parts.headD "" else ""
    else if strIncludes hostname "belegboost.de" then
      let parts := hostParts hostname
      if parts.headD "" != "www" && parts.length == 3 then parts.headD "" else ""
    else ""
  if subdomain == "" then
    .error "No tenant subdomain found in request"
  else
    .ok { tenantId := "placeholder-tenant-id", userId := "placeholder-user-id",
          role := "owner", subdomain := subdomain }

/-! ## Data model

Document records as persisted by the data access layer. Enum values
(`OrganizationType.ADVISOR = "advisor"`, `OrganizationType.CLIENT =
"client"`, `TenantStatus.ACTIVE = "active"`, `OrganizationStatus.ACTIVE =
"active"`) come from the auto-generated `src/types/appwrite.ts` referenced
throughout the DAL; the canonical string unions appear in
`src/types/database.ts` and `src/types/organization.ts`. -/

/-- A `tenants` collection document (fields written by `createTenant`,
`src/lib/dal/tenants.ts` lines 123-151). -/
structure Tenant where
  id : String
  team_id : String
  subdomain : String
  name : String
  owner_email : String
  branding_logo_url : Option String
  branding_primary_color : Option String
  branding_secondary_color : Option String
  status : String
  deriving DecidableEq, Repr

/-- An `organizations` collection document (fields written by
`createOrganization`, `src/lib/dal/organizations.ts` lines 22-52). -/
structure Organization where
  id : String
  tenant_id : String
  «type» : String
  name : String
  tax_id : Option String
  contact_email : String
  contact_phone : Option String
  status : String
  deriving DecidableEq, Repr

/-- A `users` collection document (fields written by `createUser` in the
users DAL, lines 281-314 of `src/lib/dal/tenants.ts`'s companion users
module). -/
structure User where
  id : String
  tenant_id : String
  organization_id : String
  appwrite_user_id : String
  role : String
  first_name : String
  last_name : String
  email : String
  phone : String
  status : String
  deriving DecidableEq, Repr

/-! ## Data access layer (`src/lib/dal/tenants.ts`, `src/lib/dal/organizations.ts`)

The Appwrite document store is modelled as explicit lists of documents in
insertion order; `listDocuments` with an equality query and `limit(1)`
returns the first matching document, `getDocument` looks a document up by
its identifier, and a thrown error is modelled by the `Option` none. -/

/-- `isSubdomainAvailable` (`src/lib/dal/tenants.ts` lines 22-38): a
subdomain is available when the `tenants` query for it matches a total of
zero documents. -/
def isSubdomainAvailable (tenants : List Tenant) (subdomain : String) : Bool :=
  (tenants.filter (fun t => t.subdomain == subdomain)).length == 0

/-- `getTenantBySubdomain` (`src/lib/dal/tenants.ts` lines 46-66): query
the `tenants` collection for the subdomain, `limit(1)`; `null` when the
total is zero, otherwise the first document. -/
def getTenantBySubdomain (tenants : List Tenant) (subdomain : String) : Option Tenant :=
  (tenants.filter (fun t => t.subdomain == subdomain)).head?

/-- `getOrganizationById` (`src/lib/dal/organizations.ts` lines 60-73):
`getDocument` on the `organizations` collection by identifier, returning
the document as-is, or `null` when the store throws (not found). No tenant
or organization re-validation is performed and no caller context is taken. -/
def getOrganizationById (organizations : List Organization)
    (organizationId : String) : Option Organization :=
  organizations.find? (fun o => o.id == organizationId)

/-- Payload of `createTenant` (`src/lib/dal/tenants.ts` lines 123-128). -/
structure CreateTenantData where
  teamId : String
  subdomain : String
  name : String
  ownerEmail : String
  deriving DecidableEq, Repr

/-- The `tenants` document written by `createTenant` (lines 130-144): every
field is set from the typed payload, branding fields `null`, status
`TenantStatus.ACTIVE`; the store assigns the fresh identifier (`'unique()'`). -/
def createTenant (id : String) (data : CreateTenantData) : Tenant :=
  { id := id
    team_id := data.teamId
    subdomain := data.subdomain
    name := data.name
    owner_email := data.ownerEmail
    branding_logo_url := none
    branding_primary_color := none
    branding_secondary_color := none
    status := "active" }

/-- Payload of `createOrganization` (`src/lib/dal/organizations.ts` lines
22-27). -/
structure CreateOrganizationData where
  tenantId : String
  «type» : String
  name : String
  contactEmail : Option String
  deriving DecidableEq, Repr

/-- The `organizations` document written by `createOrganization` (lines
28-45): `tenant_id` is set from the payload's dedicated `tenantId` field,
the string type is mapped onto the enum (`'advisor'` ↦
`OrganizationType.ADVISOR`, otherwise `CLIENT`), `tax_id`/`contact_phone`
are `null` and status is `ACTIVE`. -/
def createOrganization (id : String) (data : CreateOrganizationData) : Organization :=
  { id := id
    tenant_id := data.tenantId
    «type» := if data.«type» == "advisor" then "advisor" else "client"
    name := data.name
    tax_id := none
    contact_email := data.contactEmail.getD ""
    contact_phone := none
    status := "active" }

/-- Payload of `createUser` (users DAL, lines 281-290). -/
structure CreateUserData where
  tenantId : String
  organizationId : String
  appwriteUserId : String
  role : String
  firstName : String
  lastName : String
  email : String
  phone : Option String
  deriving DecidableEq, Repr

/-- The `users` document written by `createUser` (lines 291-307):
`tenant_id` and `organization_id` come from the payload's dedicated
identifier fields, `phone` defaults to `''` and status is `'active'`. -/
def createUser (id : String) (data : CreateUserData) : User :=
  { id := id
    tenant_id := data.tenantId
    organization_id := data.organizationId
    appwrite_user_id := data.appwriteUserId
    role := data.role
    first_name := data.firstName
    last_name := data.lastName
    email := data.email
    phone := data.phone.getD ""
    status := "active" }

/-! ## Registration validation (`src/lib/validations/auth.ts`) -/

/-- `registrationSchema`'s input shape. -/
structure RegistrationFormData where
  firmName : String
  subdomain : String
  firstName : String
  lastName : String
  email : String
  password : String
  confirmPassword : String
  acceptTerms : Bool
  deriving DecidableEq, Repr

/-- A lower-case letter or digit (the classes `[a-z0-9]` of
`subdomainRegex`). -/
def isLowerAlnum (c : Char) : Bool :=
  ('a' ≤ c && c ≤ 'z') || ('0' ≤ c && c ≤ '9')

/-- The anchored `subdomainRegex`
`^[a-z0-9]([a-z0-9-]{1,61}[a-z0-9])?$`: one leading alphanumeric, then
optionally 1-61 characters of `[a-z0-9-]` closed by an alphanumeric. -/
def subdomainRegexAccepts (s : String) : Bool :=
  match s.data with
  | [] => false
  | c :: rest =>
    isLowerAlnum c &&
      (rest.isEmpty ||
        (match rest.getLast? with
         | none => false
         | some last =>
           isLowerAlnum last && decide (1 ≤ rest.dropLast.length) &&
             decide (rest.dropLast.length ≤ 61) &&
             rest.dropLast.all (fun x => isLowerAlnum x || x == '-')))

/-- The special-character class `[@$!%*?&]` of `passwordRegex`. -/
def isPasswordSpecial (c : Char) : Bool :=
  c == '@' || c == '$' || c == '!' || c == '%' || c == '*' || c == '?' || c == '&'

/-- A character of the class `[A-Za-z\d@$!%*?&]`. -/
def isPasswordAllowed (c : Char) : Bool :=
  ('a' ≤ c && c ≤ 'z') || ('A' ≤ c && c ≤ 'Z') || ('0' ≤ c && c ≤ '9') ||
    isPasswordSpecial c

/-- The unanchored-at-the-end `passwordRegex`
`^(?=.*[a-z])(?=.*[A-Z])(?=.*\d)(?=.*[@$!%*?&])[A-Za-z\d@$!%*?&]`: four
lookaheads plus one allowed character at the start. -/
def passwordRegexAccepts (s : String) : Bool :=
  s.data.any (fun c => 'a' ≤ c && c ≤ 'z') &&
    s.data.any (fun c => 'A' ≤ c && c ≤ 'Z') &&
    s.data.any (fun c => '0' ≤ c && c ≤ '9') &&
    s.data.any isPasswordSpecial &&
    (match s.data with
     | [] => false
     | c :: _ => isPasswordAllowed c)

/-- zod's `.email()` check is library code external to this repository;
modelled as requiring an `@` character (none of the claims depend on the
e-mail format). -/
def emailAccepts (s : String) : Bool :=
  s.data.contains '@'

/-- `registrationSchema.parse`: the checks of every field in schema order,
then the declared transforms (`toLowerCase`/`trim` on subdomain and e-mail,
`trim` on the name fields), plus the `password = confirmPassword`
refinement; `none` models a thrown `ZodError`. -/
def validateRegistration (f : RegistrationFormData) : Option RegistrationFormData :=
  if decide (2 ≤ f.firmName.length) && decide (f.firmName.length ≤ 200) &&
      decide (3 ≤ f.subdomain.length) && decide (f.subdomain.length ≤ 63) &&
      subdomainRegexAccepts f.subdomain &&
      decide (1 ≤ f.firstName.length) && decide (f.firstName.length ≤ 100) &&
      decide (1 ≤ f.lastName.length) && decide (f.lastName.length ≤ 100) &&
      emailAccepts f.email &&
      decide (8 ≤ f.password.length) && decide (f.password.length ≤ 128) &&
      passwordRegexAccepts f.password &&
      f.acceptTerms &&
      f.password == f.confirmPassword then
    some { f with
      firmName := strTrim f.firmName
      subdomain := strTrim (strToLower f.subdomain)
      firstName := strTrim f.firstName
      lastName := strTrim f.lastName
      email := strTrim (strToLower f.email) }
  else
    none

/-! ## Registration server action (`src/actions/auth.ts`)

The Appwrite collaborators (`account.create`, `teams.create`,
`teams.createMembership`, `teams.delete`,
`account.createEmailPasswordSession`) are modelled by an `Oracle` record
fixing, per call site, whether the call succeeds and which fresh
identifier it returns; the mutable world is a `Store` of the identity
provider's state plus the document collections. -/

/-- The mutable world touched by `registerTaxAdvisor`: Appwrite identities,
teams and team memberships, and the `tenants` / `organizations` / `users`
document collections. -/
structure Store where
  identities : List String
  teams : List String
  memberships : List (String × String)
  tenants : List Tenant
  organizations : List Organization
  users : List User
  deriving DecidableEq, Repr

/-- Outcomes of the external Appwrite calls made by `registerTaxAdvisor`:
one success flag and one fresh identifier per call site. -/
structure Oracle where
  accountCreateOk : Bool
  accountCreateId : String
  teamsCreateOk : Bool
  teamsCreateId : String
  membershipOk : Bool
  tenantCreateOk : Bool
  tenantCreateId : String
  orgCreateOk : Bool
  orgCreateId : String
  userCreateOk : Bool
  userCreateId : String
  teamDeleteOk : Bool
  sessionOk : Bool
  deriving DecidableEq, Repr

/-- The `ActionResult` shape of `src/actions/auth.ts` (lines 27-31),
with `data` specialised to the `{ subdomain }` payload of
`registerTaxAdvisor`. -/
structure ActionResult where
  success : Bool
  error : Option String
  subdomain : Option String
  deriving DecidableEq, Repr

/-- Remove the Appwrite team in a cleanup block (`teams.delete(team.$id)`);
when the deletion itself fails the error is only logged and the store is
left as it was. The tenant / organization / user documents are not touched
by any cleanup block in the source. -/
def cleanupTeam (oracle : Oracle) (store : Store) : Store :=
  if oracle.teamDeleteOk then
    { store with teams := store.teams.filter (fun t => t != oracle.teamsCreateId) }
  else
    store

/-- `registerTaxAdvisor` (`src/actions/auth.ts` lines 39-243), step by
step: parse, reserved-subdomain check, availability check, Appwrite account
creation, team creation, membership creation (failure only logged), tenant
document creation (on failure: team cleanup), advisor organization creation
(on failure: team cleanup), user document creation (on failure: team
cleanup), session creation (failure only logged). -/
def registerTaxAdvisor (formData : RegistrationFormData) (oracle : Oracle)
    (store : Store) : ActionResult × Store :=
  match validateRegistration formData with
  | none =>
    ({ success := false,
       error := some "Validierungsfehler: Bitte überprüfen Sie Ihre Eingaben",
       subdomain := none }, store)
  | some validatedData =>
    if RESERVED_SUBDOMAINS.contains (strToLower validatedData.subdomain) then
      ({ success := false,
         error := some "Diese Subdomain ist reserviert und kann nicht verwendet werden",
         subdomain := none }, store)
    else if !isSubdomainAvailable store.tenants validatedData.subdomain then
      ({ success := false, error := some "Diese Subdomain ist bereits vergeben",
         subdomain := none }, store)
    else if !oracle.accountCreateOk then
      ({ success := false, error := some "Fehler beim Erstellen des Benutzerkontos",
         subdomain := none }, store)
    else
      let store1 := { store with identities := store.identities ++ [oracle.accountCreateId] }
      if !oracle.teamsCreateOk then
        ({ success := false, error := some "Fehler beim Erstellen des Teams",
           subdomain := none }, store1)
      else
        let store2 := { store1 with teams := store1.teams ++ [oracle.teamsCreateId] }
        let store3 :=
          if oracle.membershipOk then
            { store2 with
                memberships := store2.memberships ++ [(oracle.teamsCreateId, oracle.accountCreateId)] }
          else
            store2
        if !oracle.tenantCreateOk then
          ({ success := false, error := some "Fehler beim Erstellen des Tenants",
             subdomain := none }, cleanupTeam oracle store3)
        else
          let tenant := createTenant oracle.tenantCreateId
            { teamId := oracle.teamsCreateId, subdomain := validatedData.subdomain,
              name := validatedData.firmName, ownerEmail := validatedData.email }
          let store4 := { store3 with tenants := store3.tenants ++ [tenant] }
          if !oracle.orgCreateOk then
            ({ success := false, error := some "Fehler beim Erstellen der Organisation",
               subdomain := none }, cleanupTeam oracle store4)
          else
            let organization := createOrganization oracle.orgCreateId
              { tenantId := tenant.id, «type» := "advisor",
                name := validatedData.firmName, contactEmail := some validatedData.email }
            let store5 :=
              { store4 with organizations := store4.organizations ++ [organization] }
            if !oracle.userCreateOk then
              ({ success := false,
                 error := some "Fehler beim Erstellen des Benutzerdatensatzes",
                 subdomain := none }, cleanupTeam oracle store5)
            else
              let user := createUser oracle.userCreateId
                { tenantId := tenant.id, organizationId := organization.id,
                  appwriteUserId := oracle.accountCreateId, role := "owner",
                  firstName := validatedData.firstName, lastName := validatedData.lastName,
                  email := validatedData.email, phone := none }
              let store6 := { store5 with users := store5.users ++ [user] }
              ({ success := true, error := none,
                 subdomain := some validatedData.subdomain }, store6)

/-! ## Session resolution (`src/lib/server/session.ts`) -/

/-- Outcome of the `account.get()` call against the identity provider: a
resolved user, a rejection of the credential (expired / invalid session),
or the provider being unreachable (network error). -/
inductive AccountGetResult
  | ok (userId : String)
  | invalidSession
  | providerUnreachable
  deriving DecidableEq, Repr

/-- `getCurrentUser` (`src/lib/server/session.ts` lines 61-79): read the
session cookie; without one return `null`; otherwise call `account.get()`
inside a `try` whose `catch` logs the error and returns `null` — whatever
the error was. -/
def getCurrentUser (sessionCookie : Option String)
    (accountGet : String → AccountGetResult) : Option String :=
  match sessionCookie with
  | none => none
  | some sessionId =>
    match accountGet sessionId with
    | .ok user => some user
    | .invalidSession => none
    | .providerUnreachable => none

/-! ## Checklists (`src/types/checklist.ts`) -/

/-- The `Checklist` interface (lines 20-78): note the stored aggregate
fields `total_items` and `completed_items`. -/
structure Checklist where
  id : String
  tenant_id : String
  organization_id : String
  title : String
  description : Option String
  total_items : Nat
  completed_items : Nat
  status : String
  due_date : Option String
  deriving DecidableEq, Repr

/-- The `ChecklistItem` interface (lines 83-129); `status` ranges over the
traffic-light union `'red' | 'yellow' | 'green'`. -/
structure ChecklistItem where
  id : String
  checklist_id : String
  title : String
  description : Option String
  status : String
  position : Nat
  requires_document : Bool
  deriving DecidableEq, Repr

/-- `calculateProgress` (`src/types/checklist.ts` lines 165-168): `0` when
`total_items` is `0`, otherwise
`Math.round((completed_items / total_items) * 100)`; the JS number
arithmetic is embedded in `ℚ` with `round` (round half up, as
`Math.round`). -/
def calculateProgress (checklist : Checklist) : ℤ :=
  if checklist.total_items = 0 then 0
  else round (((checklist.completed_items : ℚ) / (checklist.total_items : ℚ)) * 100)

/-- The items of a checklist counted as completed: status `'green'`. -/
def countGreen (items : List ChecklistItem) : Nat :=
  (items.filter (fun it => it.status == "green")).length

/-- The aggregate fields of a checklist agree with its items: spec §8 P6,
`completed_items(C) = count of items in C with status = green` (and the
stored total is the item count). -/
def checklistConsistent (checklist : Checklist) (items : List ChecklistItem) : Prop :=
  checklist.completed_items = countGreen items ∧
    checklist.total_items = items.length

/-- Modelled from the spec: `src/` contains no persistence operation that
mutates a checklist item's status (only the type definitions and progress
helpers are present; the checklist data access layer is missing). Spec
§4.5: "any write that changes an item's status must, in the same logical
operation, keep the parent aggregate consistent", and §3: the aggregate is
"count of `green` over total ... derived or kept consistent by the same
transaction that changes item status". This definition follows those
words: it writes the item's new status and, in the same operation,
recomputes the parent checklist's `completed_items` and `total_items` from
the items. -/
def updateItemStatus (checklist : Checklist) (items : List ChecklistItem)
    (itemId : String) (newStatus : String) : Checklist × List ChecklistItem :=
  let updated := items.map
    (fun it => if it.id == itemId then { it with status := newStatus } else it)
  ({ checklist with
      completed_items := countGreen updated
      total_items := updated.length }, updated)

/-- A sequence of item-status mutations applied in order. -/
def applyStatusUpdates (state : Checklist × List ChecklistItem)
    (ops : List (String × String)) : Checklist × List ChecklistItem :=
  ops.foldl (fun st op => updateItemStatus st.1 st.2 op.1 op.2) state

/-! ## Spec-side definitions and concrete fixtures -/

/-- JavaScript-style string suffix test; used only to state what it means
for a host to "end with the production root domain". -/
def strEndsWith (s pat : String) : Bool :=
  listStartsWith pat.data.reverse s.data.reverse

/-- The slug the Host Router actually extracts, written in the words of the
amended routing claim (for comparison with `middleware`): no port
stripping; a host containing the substring `localhost` takes its first
label as slug unless that label is `localhost` or empty or there is only
one label; otherwise a host containing the substring `belegboost.de`
(containment, not suffix) with exactly three labels takes its first label
as slug unless that label is `www` or empty; every other host has no
tenant. -/
def specSlug (hostname : String) : Option String :=
  if strIncludes hostname "localhost" then
    match hostParts hostname with
    | p :: _ :: _ =>
      if p = "localhost" then none else if p = "" then none else some p
    | _ => none
  else if strIncludes hostname "belegboost.de" then
    match hostParts hostname with
    | [p, _, _] => if p = "www" then none else if p = "" then none else some p
    | _ => none
  else none

/-- The Host Router contract in the amended claim's words: pass through
when there is no slug, otherwise rewrite into the tenant namespace. -/
def hostRouterSpec (hostname pathname : String) : MiddlewareResult :=
  match specSlug hostname with
  | none => .next
  | some slug => .rewrite ("/tenants/" ++ slug ++ pathname)

/-- A client organization of tenant `tenant-B` (fixture). -/
def clientOrg : Organization :=
  { id := "org-1", tenant_id := "tenant-B", «type» := "client",
    name := "Baeckerei GmbH", tax_id := none, contact_email := "",
    contact_phone := none, status := "active" }

/-- A well-formed registration form for the slug `mueller` (fixture). -/
def muellerForm : RegistrationFormData :=
  { firmName := "Mueller Steuerberatung", subdomain := "mueller",
    firstName := "Max", lastName := "Mueller", email := "max@mueller.de",
    password := "Passw0rd!", confirmPassword := "Passw0rd!", acceptTerms := true }

/-- Oracle for a registration run in which every Appwrite call succeeds
except the advisor-organization creation (fixture). -/
def orgFailureOracle : Oracle :=
  { accountCreateOk := true, accountCreateId := "identity-1",
    teamsCreateOk := true, teamsCreateId := "team-1",
    membershipOk := true,
    tenantCreateOk := true, tenantCreateId := "tenant-1",
    orgCreateOk := false, orgCreateId := "org-1",
    userCreateOk := true, userCreateId := "user-1",
    teamDeleteOk := true, sessionOk := true }

/-- The empty world before any registration (fixture). -/
def emptyStore : Store :=
  { identities := [], teams := [], memberships := [], tenants := [],
    organizations := [], users := [] }

/-- The checklist of spec §8 example 4: four items, two of them green
(fixture). -/
def demoChecklist : Checklist :=
  { id := "cl-1", tenant_id := "tenant-1", organization_id := "org-1",
    title := "Jahresabschluss", description := none, total_items := 4,
    completed_items := 2, status := "active", due_date := none }

/-- The four items of `demoChecklist`: two green, one yellow, one red
(fixture). -/
def demoItems : List ChecklistItem :=
  [{ id := "item-1", checklist_id := "cl-1", title := "Umsatzsteuer",
     description := none, status := "green", position := 1,
     requires_document := true },
   { id := "item-2", checklist_id := "cl-1", title := "Lohnjournal",
     description := none, status := "green", position := 2,
     requires_document := false },
   { id := "item-3", checklist_id := "cl-1", title := "Belege",
     description := none, status := "yellow", position := 3,
     requires_document := false },
   { id := "item-4", checklist_id := "cl-1", title := "Inventur",
     description := none, status := "red", position := 4,
     requires_document := true }]

/-! ## Helper lemmas -/

/-- `middleware` unfolded to its subdomain test. -/
theorem middleware_eq_cond (hostname pathname : String) :
    middleware hostname pathname =
      if middlewareSubdomain hostname == "" then .next
      else .rewrite ("/tenants/" ++ middlewareSubdomain hostname ++ pathname) := rfl

/-- Every reserved subdomain is nonempty and, glued in front of
`.belegboost.de`, is extracted unchanged by the middleware — except `www`,
which extracts to the empty slug. -/
theorem reserved_middlewareSubdomain_eval :
    RESERVED_SUBDOMAINS.all
      (fun s => (s != "") &&
        (middlewareSubdomain (s ++ ".belegboost.de") ==
          (if s == "www" then "" else s))) = true := by decide

/-- Every reserved subdomain is fixed by the registration schema's
lower-case and trim transforms. -/
theorem reserved_transform_fixed :
    RESERVED_SUBDOMAINS.all
      (fun s => (strTrim (strToLower s) == s) && (strToLower s == s)) = true := by decide

/-! ## Claims -/

/-- C1: the claim says a request to tenant T2's subdomain authenticated as
a user who is a member only of T1 never yields a context with T2's tenant
id and always fails with `TenantMismatch` or `MembershipNotFound`. The
code's `getTenantContext` instead succeeds on any tenant subdomain with a
hard-coded placeholder context and the `owner` role, consulting neither the
session nor the membership nor the tenant directory: evaluated here on a
request to the `schmidt` subdomain. -/
theorem C1_placeholder_context_returned :
    getTenantContext "schmidt.belegboost.de" =
      .ok { tenantId := "placeholder-tenant-id", userId := "placeholder-user-id",
            role := "owner", subdomain := "schmidt" } := rfl

/-- C2: the claim says a get-by-id read whose fetched record belongs to a
tenant other than the caller's context is answered with "not found". The
code's `getOrganizationById` takes no caller context and returns the
fetched document unconditionally: here a caller scoped to `tenant-A`
receives `tenant-B`'s organization. -/
theorem C2_cross_tenant_org_returned :
    getOrganizationById [clientOrg] "org-1" = some clientOrg ∧
      clientOrg.tenant_id ≠ "tenant-A" :=
  ⟨rfl, by decide⟩

/-- C3: the claim says that when tenant creation succeeds and the
subsequent advisor-organization creation fails, the tenant record is
removed or made unresolvable via `getTenantBySubdomain`. In the code's
cleanup block only the Appwrite team is deleted; the `tenants` document
survives, and the slug still resolves: evaluated here on a registration of
`mueller` whose organization-creation call fails. -/
theorem C3_tenant_resolvable_after_failed_org_creation :
    (registerTaxAdvisor muellerForm orgFailureOracle emptyStore).1.success = false ∧
      getTenantBySubdomain
        (registerTaxAdvisor muellerForm orgFailureOracle emptyStore).2.tenants
        "mueller" =
        some (createTenant "tenant-1"
          { teamId := "team-1", subdomain := "mueller",
            name := "Mueller Steuerberatung", ownerEmail := "max@mueller.de" }) :=
  ⟨rfl, rfl⟩

/-- C5: for every create operation of the data access layer, the persisted
record's `tenant_id` (and `organization_id` where applicable) equals the
dedicated identifier argument the caller's context supplies — for every
payload, whatever its remaining fields contain, so no payload field can
override the scoping identifiers. -/
theorem C5_created_records_scoped_from_context (id : String) (u : CreateUserData)
    (o : CreateOrganizationData) (t : CreateTenantData) :
    (createUser id u).tenant_id = u.tenantId ∧
      (createUser id u).organization_id = u.organizationId ∧
      (createOrganization id o).tenant_id = o.tenantId ∧
      (createTenant id t).team_id = t.teamId ∧
      (createTenant id t).subdomain = t.subdomain :=
  ⟨rfl, rfl, rfl, rfl, rfl⟩

/-- C7 counterexample: the claim says an unreachable identity provider
surfaces a distinguished 5xx-class error from session resolution, distinct
from the unauthenticated result of an invalid credential. The code's
`getCurrentUser` catches every error and returns `null`: an unreachable
provider and an invalid session produce the identical result. -/
theorem C7_counterexample_unreachable_swallowed :
    getCurrentUser (some "session-1") (fun _ => .providerUnreachable) = none ∧
      getCurrentUser (some "session-1") (fun _ => .invalidSession) = none :=
  ⟨rfl, rfl⟩

/-- C7 amended: when the identity provider is unreachable, `getCurrentUser`
returns `null` — the same unauthenticated result an expired or invalid
credential produces; no distinguished "auth provider unreachable" error is
surfaced. -/
theorem C7_amended_unreachable_indistinguishable (sessionId : String)
    (g g' : String → AccountGetResult)
    (h : g sessionId = .providerUnreachable)
    (h' : g' sessionId = .invalidSession) :
    getCurrentUser (some sessionId) g = none ∧
      getCurrentUser (some sessionId) g = getCurrentUser (some sessionId) g' := by
  simp only [getCurrentUser, h, h']
  exact ⟨trivial, trivial⟩

/-- Witness for C7: the amended theorem applied to the constant provider
outcomes at the session id `session-9`. -/
theorem C7_amended_witness :
    ((fun _ : String => AccountGetResult.providerUnreachable) "session-9" =
        AccountGetResult.providerUnreachable) ∧
      (getCurrentUser (some "session-9") (fun _ => .providerUnreachable) = none ∧
        getCurrentUser (some "session-9") (fun _ => .providerUnreachable) =
          getCurrentUser (some "session-9") (fun _ => .invalidSession)) :=
  ⟨rfl, C7_amended_unreachable_indistinguishable "session-9"
    (fun _ => .providerUnreachable) (fun _ => .invalidSession) rfl rfl⟩

/-- C4 counterexample: `admin` is in the reserved-subdomain denylist, yet
the middleware rewrites a request for host `admin.belegboost.de` into the
tenant namespace `/tenants/admin/...` — the denylist is never consulted at
routing time. -/
theorem C4_counterexample_admin_rewritten :
    "admin" ∈ RESERVED_SUBDOMAINS ∧
      middleware "admin.belegboost.de" "/dashboard" =
        .rewrite "/tenants/admin/dashboard" :=
  ⟨by decide, rfl⟩

/-- C4 amended: the reserved-subdomain denylist is enforced only at
registration time; the middleware treats reserved slugs like any other
slug: every reserved slug other than `www` appearing as the first label of
a `<slug>.belegboost.de` host is rewritten to `/tenants/<slug>/...` (and
`www` never resolves, by the `www` rule rather than by the denylist). -/
theorem C4_amended_router_rewrites_reserved (s pathname : String)
    (hs : s ∈ RESERVED_SUBDOMAINS) (hw : s ≠ "www") :
    middleware (s ++ ".belegboost.de") pathname =
      .rewrite ("/tenants/" ++ s ++ pathname) := by
  have hall := List.all_eq_true.mp reserved_middlewareSubdomain_eval s hs
  rw [Bool.and_eq_true, bne_iff_ne, beq_iff_eq] at hall
  obtain ⟨hne, heq⟩ := hall
  rw [beq_eq_false_iff_ne.mpr hw, if_neg] at heq
  · rw [middleware_eq_cond, heq, beq_eq_false_iff_ne.mpr hne]
    simp
  · exact Bool.false_ne_true

/-- Witness for C4: the amended theorem applied to the reserved slug `api`
and the path `/einstellungen`. -/
theorem C4_amended_witness :
    ("api" ∈ RESERVED_SUBDOMAINS ∧ "api" ≠ "www") ∧
      middleware ("api" ++ ".belegboost.de") "/einstellungen" =
        .rewrite ("/tenants/" ++ "api" ++ "/einstellungen") :=
  ⟨⟨by decide, by decide⟩,
    C4_amended_router_rewrites_reserved "api" "/einstellungen" (by decide) (by decide)⟩

/-- C8: registration with a reserved slug fails and leaves the world
untouched — either the schema rejects the form (no external call has been
made yet), or the reserved-subdomain check fires immediately after
parsing, before the identity, team, tenant, organization and user creation
steps; in both cases the result is a failure and no record of any kind is
created. -/
theorem C8_reserved_registration_rejected (f : RegistrationFormData)
    (oracle : Oracle) (store : Store) (hs : f.subdomain ∈ RESERVED_SUBDOMAINS) :
    (registerTaxAdvisor f oracle store).1.success = false ∧
      (registerTaxAdvisor f oracle store).2 = store := by
  have hall := List.all_eq_true.mp reserved_transform_fixed f.subdomain hs
  rw [Bool.and_eq_true, beq_iff_eq, beq_iff_eq] at hall
  obtain ⟨htrim, hlower⟩ := hall
  unfold registerTaxAdvisor
  cases hv : validateRegistration f with
  | none => exact ⟨rfl, rfl⟩
  | some v =>
    have hsub : v.subdomain = strTrim (strToLower f.subdomain) := by
      unfold validateRegistration at hv
      split at hv
      · cases hv; rfl
      · exact Option.noConfusion hv
    have hmem : strToLower v.subdomain ∈ RESERVED_SUBDOMAINS := by
      rw [hsub, htrim, hlower]
      exact hs
    simp [hmem]

/-- Witness for C8: the theorem applied to a registration form carrying the
reserved slug `admin`, an all-succeeding oracle and the empty store. -/
theorem C8_reserved_registration_rejected_witness :
    ({ muellerForm with subdomain := "admin" }.subdomain ∈ RESERVED_SUBDOMAINS) ∧
      ((registerTaxAdvisor { muellerForm with subdomain := "admin" }
          { orgFailureOracle with orgCreateOk := true } emptyStore).1.success = false ∧
        (registerTaxAdvisor { muellerForm with subdomain := "admin" }
          { orgFailureOracle with orgCreateOk := true } emptyStore).2 = emptyStore) :=
  ⟨by decide,
    C8_reserved_registration_rejected { muellerForm with subdomain := "admin" }
      { orgFailureOracle with orgCreateOk := true } emptyStore (by decide)⟩

/-- C6 counterexample: the claim says hosts not ending with the production
root domain pass through unchanged, but the middleware keys on substring
containment, not suffix: `evil.belegboost.dex` does not end with
`belegboost.de`, yet it is rewritten into the tenant namespace; likewise
the development host `app.localhost` (the claim omits the development
branch) is rewritten. -/
theorem C6_counterexample_containment_not_suffix :
    strEndsWith "evil.belegboost.dex" "belegboost.de" = false ∧
      middleware "evil.belegboost.dex" "/a" = .rewrite "/tenants/evil/a" ∧
      strEndsWith "app.localhost" "belegboost.de" = false ∧
      middleware "app.localhost" "/a" = .rewrite "/tenants/app/a" :=
  ⟨rfl, rfl, rfl, rfl⟩

/-- C6 amended: the router strips no port (a port suffix rides along inside
the last label); a host containing the substring `localhost` takes its
first label as slug unless that label is `localhost` or empty or is the
only label; otherwise a host containing the substring `belegboost.de`
(containment, not suffix) with exactly three dot-separated labels takes its
first, non-`www`, nonempty label as slug; every other host — in particular
any host containing neither substring — passes through unchanged. The
middleware coincides with this algorithm (`hostRouterSpec`) on every host
and path. -/
theorem C6_amended_router_algorithm (hostname pathname : String) :
    middleware hostname pathname = hostRouterSpec hostname pathname := by
  have hsub : middlewareSubdomain hostname = (specSlug hostname).getD "" := by
    unfold middlewareSubdomain specSlug
    by_cases h1 : strIncludes hostname "localhost"
    · simp only [h1, if_true]
      cases hp : hostParts hostname with
      | nil => simp
      | cons p rest =>
        cases rest with
        | nil => simp
        | cons q rest' =>
          by_cases hp0 : p = "localhost"
          · simp [hp0]
          · by_cases hpe : p = ""
            · simp [hp0, hpe]
            · simp [hp0, hpe]
    · simp only [h1, if_false, Bool.false_eq_true]
      by_cases h2 : strIncludes hostname "belegboost.de"
      · simp only [h2, if_true]
        cases hp : hostParts hostname with
        | nil => simp
        | cons p rest =>
          cases rest with
          | nil =>
            by_cases hpw : p = "www"
            · simp [hpw]
            · simp [hpw]
          | cons q rest' =>
            cases rest' with
            | nil =>
              by_cases hpw : p = "www"
              · simp [hpw]
              · simp [hpw]
            | cons r rest'' =>
              cases rest'' with
              | nil =>
                by_cases hpw : p = "www"
                · simp [hpw]
                · by_cases hpe : p = ""
                  · simp [hpw, hpe]
                  · simp [hpw, hpe]
              | cons s rest''' =>
                by_cases hpw : p = "www"
                · simp [hpw]
                · simp [hpw]
      · simp [h2]
  rw [middleware_eq_cond, hsub]
  cases hs : specSlug hostname with
  | none => simp [hostRouterSpec, hs]
  | some slug =>
    have hne : slug ≠ "" := by
      unfold specSlug at hs
      split at hs
      · split at hs
        · split at hs
          · exact Option.noConfusion hs
          · split at hs
            · exact Option.noConfusion hs
            · intro hc
              cases hs
              simp_all
        · exact Option.noConfusion hs
      · split at hs
        · split at hs
          · split at hs
            · exact Option.noConfusion hs
            · split at hs
              · exact Option.noConfusion hs
              · intro hc
                cases hs
                simp_all
          · exact Option.noConfusion hs
        · exact Option.noConfusion hs
    simp [hostRouterSpec, hs, beq_eq_false_iff_ne.mpr hne]

/-- One step of the spec-modelled item-status mutation restores the
aggregate invariant by construction. -/
theorem updateItemStatus_consistent (c : Checklist) (items : List ChecklistItem)
    (itemId newStatus : String) :
    checklistConsistent (updateItemStatus c items itemId newStatus).1
      (updateItemStatus c items itemId newStatus).2 :=
  ⟨rfl, rfl⟩

/-- C9: for a checklist whose aggregate fields agree with its items, after
any sequence of item-status mutations (each keeping the aggregate in the
same logical operation, as the spec prescribes for the missing mutation
code) the stored `completed_items` still equals the count of `green` items
and `total_items` the item count — the aggregate stays a pure function of
the items' statuses. -/
theorem C9_progress_consistent_after_mutations (c : Checklist)
    (items : List ChecklistItem) (ops : List (String × String))
    (h : checklistConsistent c items) :
    checklistConsistent (applyStatusUpdates (c, items) ops).1
      (applyStatusUpdates (c, items) ops).2 := by
  induction ops generalizing c items with
  | nil => exact h
  | cons op rest ih =>
    have hstep := updateItemStatus_consistent c items op.1 op.2
    have hfold :
        applyStatusUpdates (c, items) (op :: rest) =
          applyStatusUpdates ((updateItemStatus c items op.1 op.2).1,
            (updateItemStatus c items op.1 op.2).2) rest := by
      simp [applyStatusUpdates]
    rw [hfold]
    exact ih _ _ hstep

/-- Witness for C9: the four-item demo checklist (two green) is consistent,
and stays consistent after turning the yellow item green (spec §8 example
4). -/
theorem C9_progress_consistent_witness :
    checklistConsistent demoChecklist demoItems ∧
      checklistConsistent
        (applyStatusUpdates (demoChecklist, demoItems) [("item-3", "green")]).1
        (applyStatusUpdates (demoChecklist, demoItems) [("item-3", "green")]).2 :=
  ⟨⟨rfl, rfl⟩,
    C9_progress_consistent_after_mutations demoChecklist demoItems
      [("item-3", "green")] ⟨rfl, rfl⟩⟩

/-- C10: `calculateProgress` is total: a checklist with `total_items = 0`
yields `0` rather than a division by zero, and with `total_items > 0` it
yields the half-up-rounded percentage of `completed_items` over
`total_items`, computable as the natural-number quotient
`(200·completed + total) / (2·total)`. -/
theorem C10_calculateProgress_total (c : Checklist) :
    (c.total_items = 0 → calculateProgress c = 0) ∧
      (c.total_items ≠ 0 →
        calculateProgress c =
          ((200 * c.completed_items + c.total_items) / (2 * c.total_items) : ℕ)) := by
  constructor
  · intro h
    simp [calculateProgress, h]
  · intro h
    have ht : (c.total_items : ℚ) ≠ 0 := Nat.cast_ne_zero.mpr h
    unfold calculateProgress
    rw [if_neg h, round_eq]
    have harith :
        ((c.completed_items : ℚ) / (c.total_items : ℚ)) * 100 + 1 / 2 =
          ((200 * c.completed_items + c.total_items : ℕ) : ℚ) /
            ((2 * c.total_items : ℕ) : ℚ) := by
      push_cast
      field_simp
      ring
    rw [harith, Rat.floor_natCast_div_natCast]
    exact_mod_cast rfl

/-- Witness for C10: the theorem applied to the four-item demo checklist
with two completed items; its progress evaluates to 50. -/
theorem C10_calculateProgress_total_witness :
    demoChecklist.total_items ≠ 0 ∧
      calculateProgress demoChecklist =
        ((200 * demoChecklist.completed_items + demoChecklist.total_items) /
          (2 * demoChecklist.total_items) : ℕ) :=
  ⟨by decide, (C10_calculateProgress_total demoChecklist).2 (by decide)⟩

end Belegboost
